import Mathlib

/-!
Shallow embedding of the cross-thread transfer engine in
`src/extension.cpp` (sm-ripext-websocket): the locked pending/completed
queues, the reactor-side admission drain (`AsyncPerformRequests`), the
host-tick hook (`FrameHook`), completion draining
(`CheckCompletedRequests`), the shared curl timer
(`CurlTimeoutCallback` / `PerformRequests`), the socket-watch callback
(`CurlSocketCallback`), submission (`AddRequestToQueue`), teardown
(`SDK_OnUnload`) and the host-thread relays (`log_msg`, `log_err`,
`execute_cb`).
-/

/-- `#define MAX_PROCESS 10` (extension.cpp line 30): cap on the number of
requests admitted per wake of the reactor. -/
def MAX_PROCESS : Nat := 10

/-- One submitted operation (`IHTTPContext *`).  `id` distinguishes
contexts; `initOk` records whether its initialization step succeeds. -/
structure IHTTPContext where
  id : Nat
  initOk : Bool
deriving DecidableEq, Repr

/-- Modelled from the spec: `IHTTPContext::InitCurl` is implemented by the
protocol collaborators outside `src/`; per the spec the initialization
step "may fail", modelled as a per-context Boolean outcome. -/
def IHTTPContext.InitCurl (c : IHTTPContext) : Bool := c.initOk

/-- The engine state visible across the two threads:
`requestQueue` is `g_RequestQueue`, `completedQueue` is
`g_CompletedRequestQueue`, `multiHandles` is the set of easy handles
added to the curl multi handle `g_Curl`, `destroyed` records contexts
that have been `delete`d, and `invoked` records the ids of contexts
whose `OnCompleted()` ran. -/
structure EngineState where
  requestQueue : List IHTTPContext
  completedQueue : List IHTTPContext
  multiHandles : List IHTTPContext
  destroyed : List IHTTPContext
  invoked : List Nat
deriving DecidableEq, Repr

/-- The `while (!g_RequestQueue.Empty() && count < MAX_PROCESS)` loop of
`AsyncPerformRequests` (extension.cpp lines 178-190).  Input: the pending
queue (front first) and the current `count`.  Output: the remaining
pending queue, the contexts added to the multi handle (in pop order), and
the contexts `delete`d after `InitCurl` failed (in pop order). -/
def asyncPerformLoop : List IHTTPContext → Nat →
    List IHTTPContext × List IHTTPContext × List IHTTPContext
  | [], _ => ([], [], [])
  | c :: rest, count =>
    if count < MAX_PROCESS then
      if c.InitCurl then
        let r := asyncPerformLoop rest (count + 1)
        (r.1, c :: r.2.1, r.2.2)
      else
        let r := asyncPerformLoop rest count
        (r.1, r.2.1, c :: r.2.2)
    else (c :: rest, [], [])

/-- `AsyncPerformRequests` (extension.cpp lines 171-193): drain the
pending queue under its lock, admitting successfully initialized
contexts into the multi handle and deleting the rest. -/
def AsyncPerformRequests (s : EngineState) : EngineState :=
  let r := asyncPerformLoop s.requestQueue 0
  { s with requestQueue := r.1,
           multiHandles := s.multiHandles ++ r.2.1,
           destroyed := s.destroyed ++ r.2.2 }

/-- `FrameHook` (extension.cpp lines 200-217): once per host tick, send
the wake signal when the pending queue is non-empty, and pop at most one
completed context, invoke its `OnCompleted()`, and delete it.  The
returned Boolean records whether `uv_async_send(&g_AsyncPerformRequests)`
was called. -/
def FrameHook (s : EngineState) : EngineState × Bool :=
  let wake := !s.requestQueue.isEmpty
  match s.completedQueue with
  | [] => (s, wake)
  | c :: rest =>
    ({ s with completedQueue := rest,
              invoked := s.invoked ++ [c.id],
              destroyed := s.destroyed ++ [c] }, wake)

/-- The engine-state effect of one host tick. -/
def RunTick (s : EngineState) : EngineState := (FrameHook s).1

/-- `n` consecutive host ticks. -/
def RunTicks : Nat → EngineState → EngineState
  | 0, s => s
  | n + 1, s => RunTicks n (RunTick s)

/-- `RipExt::AddRequestToQueue` (extension.cpp lines 308-313): lock the
pending queue, push, unlock. -/
def AddRequestToQueue (s : EngineState) (c : IHTTPContext) : EngineState :=
  { s with requestQueue := s.requestQueue ++ [c] }

/-- The kind of a `CURLMsg` returned by `curl_multi_info_read`. -/
inductive CURLMSG
  | NONE
  | DONE
  | LAST
deriving DecidableEq, Repr

/-- A notification from the transfer manager: its kind and the
`CURLINFO_PRIVATE` context of its easy handle. -/
structure CURLMsg where
  msg : CURLMSG
  context : IHTTPContext
deriving DecidableEq, Repr

/-- `CheckCompletedRequests` (extension.cpp lines 64-86): repeatedly read
notifications; skip any whose kind is not `CURLMSG_DONE`; for each done
one, remove its easy handle from the multi handle, then push its context
onto the completed queue under that queue's lock. -/
def CheckCompletedRequests : List CURLMsg → EngineState → EngineState
  | [], s => s
  | m :: rest, s =>
    if m.msg ≠ CURLMSG.DONE then
      CheckCompletedRequests rest s
    else
      CheckCompletedRequests rest
        { s with multiHandles := s.multiHandles.eraseP (fun x => x == m.context),
                 completedQueue := s.completedQueue ++ [m.context] }

/-- An abstract step the reactor performs against the curl multi handle. -/
inductive ReactorStep
  | socketAction (socket : Int) (evBitmask : Int)
  | checkCompleted
deriving DecidableEq, Repr

/-- `CURL_SOCKET_TIMEOUT` is `CURL_SOCKET_BAD`, i.e. `-1`: the pseudo
socket passed for a timeout-driven `curl_multi_socket_action`. -/
def CURL_SOCKET_TIMEOUT : Int := -1

/-- `PerformRequests` (extension.cpp lines 88-94), the timer callback:
a timeout-driven `curl_multi_socket_action(g_Curl, CURL_SOCKET_TIMEOUT,
0, ...)` followed by `CheckCompletedRequests()`. -/
def PerformRequestsSteps : List ReactorStep :=
  [ReactorStep.socketAction CURL_SOCKET_TIMEOUT 0, ReactorStep.checkCompleted]

/-- The shared timer `g_Timeout`: whether it is running, the due time and
repeat interval it was last started with, and the steps its expiry
callback performs. -/
structure uv_timer_t where
  running : Bool
  timeout : Int
  repeatMs : Int
  callbackSteps : List ReactorStep
deriving DecidableEq, Repr

/-- `uv_timer_stop`: stop the timer. -/
def uv_timer_stop (t : uv_timer_t) : uv_timer_t := { t with running := false }

/-- `uv_timer_start(timer, cb, timeout, repeat)`: (re)start the timer. -/
def uv_timer_start (cb : List ReactorStep) (timeout repeatMs : Int) : uv_timer_t :=
  { running := true, timeout := timeout, repeatMs := repeatMs, callbackSteps := cb }

/-- `CurlTimeoutCallback` (extension.cpp lines 154-164): a deadline of
`-1` stops the shared timer; any other deadline starts it one-shot with
`PerformRequests` as its callback.  Returns the new timer state and the
callback's return value. -/
def CurlTimeoutCallback (timeout_ms : Int) (t : uv_timer_t) : uv_timer_t × Int :=
  if timeout_ms = -1 then (uv_timer_stop t, 0)
  else (uv_timer_start PerformRequestsSteps timeout_ms 0, 0)

/-- The `action` argument of the curl socket callback. -/
inductive CurlPollAction
  | CURL_POLL_IN
  | CURL_POLL_OUT
  | CURL_POLL_INOUT
  | CURL_POLL_REMOVE
deriving DecidableEq, Repr

/-- `UV_READABLE` poll-event bit. -/
def UV_READABLE : Nat := 1

/-- `UV_WRITABLE` poll-event bit. -/
def UV_WRITABLE : Nat := 2

/-- A Socket Watch Context (`CurlContext`): per-socket poll state owned
by the reactor thread. -/
structure CurlContext where
  socket : Int
deriving DecidableEq, Repr

/-- Observable socket-watch events of one `CurlSocketCallback` call. -/
inductive SockEv
  | ctxCreated
  | pollStart (events : Nat)
  | pollStop
  | ctxDestroyed
deriving DecidableEq, Repr

/-- Modelled from the spec: `CurlContext::Destroy` is declared outside
`src/` (extension.h); per the spec a remove request "stop[s] polling and
destroy[s] the Socket Watch Context", so its observable effect is a
poll-stop followed by destruction of the context. -/
def CurlContext.DestroyEvents : List SockEv := [SockEv.pollStop, SockEv.ctxDestroyed]

/-- `CurlSocketCallback` (extension.cpp lines 116-152): for
`CURL_POLL_IN`/`OUT`/`INOUT`, reuse the assigned Socket Watch Context or
create one if absent, assign it to the socket, and start polling with
`UV_WRITABLE` unless the action is `CURL_POLL_IN` and `UV_READABLE`
unless it is `CURL_POLL_OUT`; for `CURL_POLL_REMOVE` with an assigned
context, destroy it and clear the association.  Returns the socket's new
assigned context, the observable events, and the callback's return
value. -/
def CurlSocketCallback (action : CurlPollAction) (socket : Int)
    (socketdata : Option CurlContext) : Option CurlContext × List SockEv × Int :=
  match action with
  | CurlPollAction.CURL_POLL_IN | CurlPollAction.CURL_POLL_OUT
  | CurlPollAction.CURL_POLL_INOUT =>
    let created : List SockEv :=
      match socketdata with
      | some _ => []
      | none => [SockEv.ctxCreated]
    let context : CurlContext :=
      match socketdata with
      | some c => c
      | none => { socket := socket }
    let events : Nat :=
      (if action ≠ CurlPollAction.CURL_POLL_IN then UV_WRITABLE else 0) +
      (if action ≠ CurlPollAction.CURL_POLL_OUT then UV_READABLE else 0)
    (some context, created ++ [SockEv.pollStart events], 0)
  | CurlPollAction.CURL_POLL_REMOVE =>
    match socketdata with
    | some _ => (none, CurlContext.DestroyEvents, 0)
    | none => (none, [], 0)

/-- The steps `RipExt::SDK_OnUnload` performs, in order. -/
inductive TeardownStep
  | asyncStopSend
  | threadJoin
  | loopClose
  | curlMultiCleanup
  | curlGlobalCleanup
  | removeHandleTypes
  | removeFrameHook
  | eventLoopUnload
  | setUnloadedTrue
deriving DecidableEq, Repr

/-- `RipExt::SDK_OnUnload` (extension.cpp lines 286-306), as its ordered
step sequence: send the stop wake, join the reactor thread, close the
event loop, clean up the curl multi handle and curl globally, remove the
handle types and the frame hook, run the websocket event-loop unload
hook, then store `true` into `unloaded`. -/
def SDK_OnUnloadSteps : List TeardownStep :=
  [TeardownStep.asyncStopSend, TeardownStep.threadJoin, TeardownStep.loopClose,
   TeardownStep.curlMultiCleanup, TeardownStep.curlGlobalCleanup,
   TeardownStep.removeHandleTypes, TeardownStep.removeFrameHook,
   TeardownStep.eventLoopUnload, TeardownStep.setUnloadedTrue]

/-- `RipExt::SDK_OnUnload` as a function of the `unloaded` flag: returns
the flag's final value and the step sequence performed. -/
def SDK_OnUnload (unloadedFlag : Bool) : Bool × List TeardownStep :=
  (true, SDK_OnUnloadSteps)

/-- `log_msg` (extension.cpp lines 315-322), run on the host thread by a
frame action: deliver the message to `smutils->LogMessage` only when the
`unloaded` flag is unset, then always free it.  Result: (delivered,
freed). -/
def log_msg (unloadedFlag : Bool) : Bool × Bool := (!unloadedFlag, true)

/-- `log_err` (extension.cpp lines 324-331): as `log_msg` but for
`smutils->LogError`. -/
def log_err (unloadedFlag : Bool) : Bool × Bool := (!unloadedFlag, true)

/-- `execute_cb` (extension.cpp lines 355-359), run on the host thread by
a frame action: invoke the deferred callback unconditionally, then free
it (via `unique_ptr`).  Result: (delivered, freed). -/
def execute_cb (unloadedFlag : Bool) : Bool × Bool := (true, true)

/-- The two locked queues. -/
inductive QueueId
  | requestQ
  | completedQ
deriving DecidableEq, Repr

/-- The observable thread-relevant events of the queue-touching
functions: lock/unlock/emptiness-check/push/pop on a locked queue, the
wake signal, calls into a context, and multi-handle add/remove. -/
inductive QueueEv
  | lockQ (q : QueueId)
  | unlockQ (q : QueueId)
  | emptyCheck (q : QueueId)
  | pushQ (q : QueueId)
  | popQ (q : QueueId)
  | asyncSend
  | initCall
  | deleteCtx
  | onCompletedCall
  | multiAdd
  | multiRemove
deriving DecidableEq, Repr

/-- Which locks are held: (request-queue lock, completed-queue lock). -/
def getHeld : Bool × Bool → QueueId → Bool
  | h, QueueId.requestQ => h.1
  | h, QueueId.completedQ => h.2

/-- Update the held-lock pair at one queue. -/
def setHeld : Bool × Bool → QueueId → Bool → Bool × Bool
  | h, QueueId.requestQ, b => (b, h.2)
  | h, QueueId.completedQ, b => (h.1, b)

/-- Every push and pop in the trace happens while the touched queue's
lock is held, starting from the given held-lock state. -/
def popsPushesLockedFrom : List QueueEv → Bool × Bool → Bool
  | [], _ => true
  | QueueEv.lockQ q :: rest, h => popsPushesLockedFrom rest (setHeld h q true)
  | QueueEv.unlockQ q :: rest, h => popsPushesLockedFrom rest (setHeld h q false)
  | QueueEv.pushQ q :: rest, h => getHeld h q && popsPushesLockedFrom rest h
  | QueueEv.popQ q :: rest, h => getHeld h q && popsPushesLockedFrom rest h
  | QueueEv.emptyCheck _ :: rest, h => popsPushesLockedFrom rest h
  | QueueEv.asyncSend :: rest, h => popsPushesLockedFrom rest h
  | QueueEv.initCall :: rest, h => popsPushesLockedFrom rest h
  | QueueEv.deleteCtx :: rest, h => popsPushesLockedFrom rest h
  | QueueEv.onCompletedCall :: rest, h => popsPushesLockedFrom rest h
  | QueueEv.multiAdd :: rest, h => popsPushesLockedFrom rest h
  | QueueEv.multiRemove :: rest, h => popsPushesLockedFrom rest h

/-- Every emptiness check in the trace happens while the checked queue's
lock is held, starting from the given held-lock state. -/
def emptyChecksLockedFrom : List QueueEv → Bool × Bool → Bool
  | [], _ => true
  | QueueEv.lockQ q :: rest, h => emptyChecksLockedFrom rest (setHeld h q true)
  | QueueEv.unlockQ q :: rest, h => emptyChecksLockedFrom rest (setHeld h q false)
  | QueueEv.emptyCheck q :: rest, h => getHeld h q && emptyChecksLockedFrom rest h
  | QueueEv.pushQ _ :: rest, h => emptyChecksLockedFrom rest h
  | QueueEv.popQ _ :: rest, h => emptyChecksLockedFrom rest h
  | QueueEv.asyncSend :: rest, h => emptyChecksLockedFrom rest h
  | QueueEv.initCall :: rest, h => emptyChecksLockedFrom rest h
  | QueueEv.deleteCtx :: rest, h => emptyChecksLockedFrom rest h
  | QueueEv.onCompletedCall :: rest, h => emptyChecksLockedFrom rest h
  | QueueEv.multiAdd :: rest, h => emptyChecksLockedFrom rest h
  | QueueEv.multiRemove :: rest, h => emptyChecksLockedFrom rest h

/-- Every pop in the trace is preceded by an emptiness check of the same
queue made since that queue's lock was last acquired (acquiring the lock
resets the checked bit), starting from the given checked state. -/
def popsRecheckedFrom : List QueueEv → Bool × Bool → Bool
  | [], _ => true
  | QueueEv.lockQ q :: rest, ck => popsRecheckedFrom rest (setHeld ck q false)
  | QueueEv.emptyCheck q :: rest, ck => popsRecheckedFrom rest (setHeld ck q true)
  | QueueEv.popQ q :: rest, ck => getHeld ck q && popsRecheckedFrom rest ck
  | QueueEv.unlockQ _ :: rest, ck => popsRecheckedFrom rest ck
  | QueueEv.pushQ _ :: rest, ck => popsRecheckedFrom rest ck
  | QueueEv.asyncSend :: rest, ck => popsRecheckedFrom rest ck
  | QueueEv.initCall :: rest, ck => popsRecheckedFrom rest ck
  | QueueEv.deleteCtx :: rest, ck => popsRecheckedFrom rest ck
  | QueueEv.onCompletedCall :: rest, ck => popsRecheckedFrom rest ck
  | QueueEv.multiAdd :: rest, ck => popsRecheckedFrom rest ck
  | QueueEv.multiRemove :: rest, ck => popsRecheckedFrom rest ck

/-- All queue accesses of the trace, emptiness checks included, happen
under the touched queue's lock (no lock held initially). -/
def queueAccessesLocked (tr : List QueueEv) : Bool :=
  popsPushesLockedFrom tr (false, false) && emptyChecksLockedFrom tr (false, false)

/-- Event trace of the `AsyncPerformRequests` drain loop: the while
condition checks emptiness each iteration; each admitted or dropped
context is popped after such a check. -/
def drainLoopTrace : List IHTTPContext → Nat → List QueueEv
  | [], _ => [QueueEv.emptyCheck QueueId.requestQ]
  | c :: rest, count =>
    QueueEv.emptyCheck QueueId.requestQ ::
      (if count < MAX_PROCESS then
        QueueEv.popQ QueueId.requestQ :: QueueEv.initCall ::
          (if c.InitCurl then QueueEv.multiAdd :: drainLoopTrace rest (count + 1)
           else QueueEv.deleteCtx :: drainLoopTrace rest count)
      else [])

/-- Event trace of `AsyncPerformRequests` (extension.cpp lines 171-193):
lock the pending queue, run the drain loop, unlock. -/
def AsyncPerformRequestsTrace (q : List IHTTPContext) : List QueueEv :=
  QueueEv.lockQ QueueId.requestQ ::
    (drainLoopTrace q 0 ++ [QueueEv.unlockQ QueueId.requestQ])

/-- Event trace of `RipExt::AddRequestToQueue` (extension.cpp lines
308-313): lock, push, unlock — nothing else, in particular no wake
signal. -/
def AddRequestToQueueTrace : List QueueEv :=
  [QueueEv.lockQ QueueId.requestQ, QueueEv.pushQ QueueId.requestQ,
   QueueEv.unlockQ QueueId.requestQ]

/-- Event trace of `CheckCompletedRequests` (extension.cpp lines 64-86):
for each done notification, remove the easy handle from the multi
handle, then lock the completed queue, push, unlock; other notifications
produce no events. -/
def CheckCompletedRequestsTrace : List CURLMsg → List QueueEv
  | [] => []
  | m :: rest =>
    if m.msg ≠ CURLMSG.DONE then CheckCompletedRequestsTrace rest
    else
      QueueEv.multiRemove :: QueueEv.lockQ QueueId.completedQ ::
        QueueEv.pushQ QueueId.completedQ :: QueueEv.unlockQ QueueId.completedQ ::
          CheckCompletedRequestsTrace rest

/-- Event trace of `FrameHook` (extension.cpp lines 200-217), given
whether the request and completed queues are observed empty: both
emptiness checks are made without holding any lock; the wake signal is
sent when the request queue is non-empty; when the completed queue is
non-empty it is locked and popped (with no further emptiness check), the
callback runs, the context is deleted, and the queue is unlocked. -/
def FrameHookTrace (requestEmpty completedEmpty : Bool) : List QueueEv :=
  (QueueEv.emptyCheck QueueId.requestQ ::
    (if requestEmpty then [] else [QueueEv.asyncSend])) ++
  (QueueEv.emptyCheck QueueId.completedQ ::
    (if completedEmpty then []
     else [QueueEv.lockQ QueueId.completedQ, QueueEv.popQ QueueId.completedQ,
           QueueEv.onCompletedCall, QueueEv.deleteCtx,
           QueueEv.unlockQ QueueId.completedQ]))

/-! ## Helper lemmas -/

theorem asyncPerformLoop_adm_initOk (q : List IHTTPContext) : ∀ (n : Nat) (c : IHTTPContext),
    c ∈ (asyncPerformLoop q n).2.1 → c.InitCurl = true := by
  induction q with
  | nil => intro n c h; simp [asyncPerformLoop] at h
  | cons a rest ih =>
    intro n c h
    by_cases hn : n < MAX_PROCESS
    · by_cases ha : a.InitCurl = true
      · simp [asyncPerformLoop, hn, ha] at h
        rcases h with h | h
        · rw [h]; exact ha
        · exact ih _ _ h
      · simp [asyncPerformLoop, hn, ha] at h
        exact ih _ _ h
    · simp [asyncPerformLoop, hn] at h

theorem asyncPerformLoop_des_initFail (q : List IHTTPContext) : ∀ (n : Nat) (c : IHTTPContext),
    c ∈ (asyncPerformLoop q n).2.2 → c.InitCurl = false := by
  induction q with
  | nil => intro n c h; simp [asyncPerformLoop] at h
  | cons a rest ih =>
    intro n c h
    by_cases hn : n < MAX_PROCESS
    · by_cases ha : a.InitCurl = true
      · simp [asyncPerformLoop, hn, ha] at h
        exact ih _ _ h
      · simp [asyncPerformLoop, hn, ha] at h
        rcases h with h | h
        · rw [h]; simpa using ha
        · exact ih _ _ h
    · simp [asyncPerformLoop, hn] at h

theorem asyncPerformLoop_adm_length (q : List IHTTPContext) : ∀ (n : Nat),
    (asyncPerformLoop q n).2.1.length ≤ MAX_PROCESS - n := by
  induction q with
  | nil => intro n; simp [asyncPerformLoop]
  | cons a rest ih =>
    intro n
    by_cases hn : n < MAX_PROCESS
    · by_cases ha : a.InitCurl = true
      · have h1 := ih (n + 1)
        simp only [asyncPerformLoop, hn, ha, if_true]
        simp only [List.length_cons]
        omega
      · have h1 := ih n
        simp only [asyncPerformLoop, hn, ha, if_true, if_false]
        simpa using h1
    · simp [asyncPerformLoop, hn]

theorem asyncPerformLoop_stops (q : List IHTTPContext) : ∀ (n : Nat), n ≤ MAX_PROCESS →
    (asyncPerformLoop q n).1 = [] ∨ (asyncPerformLoop q n).2.1.length + n = MAX_PROCESS := by
  induction q with
  | nil => intro n _; left; simp [asyncPerformLoop]
  | cons a rest ih =>
    intro n hn
    by_cases hlt : n < MAX_PROCESS
    · by_cases ha : a.InitCurl = true
      · rcases ih (n + 1) (by omega) with h | h
        · left; simp [asyncPerformLoop, hlt, ha, h]
        · right; simp only [asyncPerformLoop, hlt, ha, if_true, List.length_cons]; omega
      · rcases ih n hn with h | h
        · left; simp [asyncPerformLoop, hlt, ha, h]
        · right; simp [asyncPerformLoop, hlt, ha]; omega
    · right; simp only [asyncPerformLoop, hlt, if_false, List.length_nil]; omega

theorem asyncPerformLoop_all_fail (q : List IHTTPContext) : ∀ (n : Nat), n < MAX_PROCESS →
    (∀ c ∈ q, c.InitCurl = false) → asyncPerformLoop q n = ([], [], q) := by
  induction q with
  | nil => intro n _ _; simp [asyncPerformLoop]
  | cons a rest ih =>
    intro n hn hall
    have ha : a.InitCurl = false := hall a (by simp)
    have hrest : ∀ c ∈ rest, c.InitCurl = false := fun c hc => hall c (by simp [hc])
    simp [asyncPerformLoop, hn, ha, ih n hn hrest]

theorem runTicks_drain (n : Nat) : ∀ (s : EngineState), s.completedQueue.length = n →
    (RunTicks n s).completedQueue = [] ∧
    (RunTicks n s).invoked = s.invoked ++ s.completedQueue.map (fun x => x.id) := by
  induction n with
  | zero =>
    intro s h
    have hq : s.completedQueue = [] := List.length_eq_zero.mp h
    simp [RunTicks, hq]
  | succ k ih =>
    intro s h
    match hc : s.completedQueue with
    | [] => rw [hc] at h; simp at h
    | c :: rest =>
      rw [hc] at h
      have hlen : rest.length = k := by simpa using h
      have hstep : RunTick s = { s with completedQueue := rest,
                                        invoked := s.invoked ++ [c.id],
                                        destroyed := s.destroyed ++ [c] } := by
        simp [RunTick, FrameHook, hc]
      rcases ih (RunTick s) (by rw [hstep]; exact hlen) with ⟨h1, h2⟩
      constructor
      · show (RunTicks k (RunTick s)).completedQueue = []
        exact h1
      · show (RunTicks k (RunTick s)).invoked = s.invoked ++ (c :: rest).map (fun x => x.id)
        rw [h2, hstep]
        simp

theorem checkCompleted_preserved (msgs : List CURLMsg) : ∀ (s : EngineState),
    (CheckCompletedRequests msgs s).invoked = s.invoked ∧
    (CheckCompletedRequests msgs s).requestQueue = s.requestQueue ∧
    (CheckCompletedRequests msgs s).destroyed = s.destroyed := by
  induction msgs with
  | nil => intro s; simp [CheckCompletedRequests]
  | cons m rest ih =>
    intro s
    by_cases hm : m.msg = CURLMSG.DONE
    · have h1 := ih { s with
        multiHandles := s.multiHandles.eraseP (fun x => x == m.context),
        completedQueue := s.completedQueue ++ [m.context] }
      simp only [CheckCompletedRequests, hm] at h1 ⊢
      simpa using h1
    · have h1 := ih s
      simp only [CheckCompletedRequests, hm] at h1 ⊢
      simpa [hm] using h1

theorem checkCompleted_completedQueue (msgs : List CURLMsg) : ∀ (s : EngineState),
    (CheckCompletedRequests msgs s).completedQueue =
      s.completedQueue ++
        (msgs.filter (fun m => m.msg == CURLMSG.DONE)).map (fun m => m.context) := by
  induction msgs with
  | nil => intro s; simp [CheckCompletedRequests]
  | cons m rest ih =>
    intro s
    by_cases hm : m.msg = CURLMSG.DONE
    · simp [CheckCompletedRequests, hm, ih]
    · simp [CheckCompletedRequests, hm, ih]

theorem checkCompleted_multiHandles (msgs : List CURLMsg) : ∀ (s : EngineState),
    (CheckCompletedRequests msgs s).multiHandles =
      (msgs.filter (fun m => m.msg == CURLMSG.DONE)).foldl
        (fun a m => a.eraseP (fun x => x == m.context)) s.multiHandles := by
  induction msgs with
  | nil => intro s; simp [CheckCompletedRequests]
  | cons m rest ih =>
    intro s
    by_cases hm : m.msg = CURLMSG.DONE
    · simp [CheckCompletedRequests, hm, ih]
    · simp [CheckCompletedRequests, hm, ih]

theorem drainLoopTrace_popsPushes (q : List IHTTPContext) : ∀ (n : Nat) (b : Bool),
    popsPushesLockedFrom
      (drainLoopTrace q n ++ [QueueEv.unlockQ QueueId.requestQ]) (true, b) = true := by
  induction q with
  | nil =>
    intro n b
    simp [drainLoopTrace, popsPushesLockedFrom, setHeld]
  | cons a rest ih =>
    intro n b
    by_cases hn : n < MAX_PROCESS
    · by_cases ha : a.InitCurl = true
      · simp [drainLoopTrace, hn, ha, popsPushesLockedFrom, getHeld, ih]
      · simp [drainLoopTrace, hn, ha, popsPushesLockedFrom, getHeld, ih]
    · simp [drainLoopTrace, hn, popsPushesLockedFrom, setHeld]

theorem drainLoopTrace_emptyChecks (q : List IHTTPContext) : ∀ (n : Nat) (b : Bool),
    emptyChecksLockedFrom
      (drainLoopTrace q n ++ [QueueEv.unlockQ QueueId.requestQ]) (true, b) = true := by
  induction q with
  | nil =>
    intro n b
    simp [drainLoopTrace, emptyChecksLockedFrom, getHeld, setHeld]
  | cons a rest ih =>
    intro n b
    by_cases hn : n < MAX_PROCESS
    · by_cases ha : a.InitCurl = true
      · simp [drainLoopTrace, hn, ha, emptyChecksLockedFrom, getHeld, ih]
      · simp [drainLoopTrace, hn, ha, emptyChecksLockedFrom, getHeld, ih]
    · simp [drainLoopTrace, hn, emptyChecksLockedFrom, getHeld, setHeld]

theorem drainLoopTrace_rechecked (q : List IHTTPContext) : ∀ (n : Nat) (c1 c2 : Bool),
    popsRecheckedFrom
      (drainLoopTrace q n ++ [QueueEv.unlockQ QueueId.requestQ]) (c1, c2) = true := by
  induction q with
  | nil =>
    intro n c1 c2
    simp [drainLoopTrace, popsRecheckedFrom, setHeld]
  | cons a rest ih =>
    intro n c1 c2
    by_cases hn : n < MAX_PROCESS
    · by_cases ha : a.InitCurl = true
      · simp [drainLoopTrace, hn, ha, popsRecheckedFrom, getHeld, setHeld, ih]
      · simp [drainLoopTrace, hn, ha, popsRecheckedFrom, getHeld, setHeld, ih]
    · simp [drainLoopTrace, hn, popsRecheckedFrom, setHeld]

theorem checkCompletedTrace_popsPushes (msgs : List CURLMsg) : ∀ (a b : Bool),
    popsPushesLockedFrom (CheckCompletedRequestsTrace msgs) (a, b) = true := by
  induction msgs with
  | nil => intro a b; simp [CheckCompletedRequestsTrace, popsPushesLockedFrom]
  | cons m rest ih =>
    intro a b
    by_cases hm : m.msg = CURLMSG.DONE
    · simp [CheckCompletedRequestsTrace, hm, popsPushesLockedFrom, getHeld, setHeld, ih]
    · simp [CheckCompletedRequestsTrace, hm, ih]

theorem checkCompletedTrace_emptyChecks (msgs : List CURLMsg) : ∀ (a b : Bool),
    emptyChecksLockedFrom (CheckCompletedRequestsTrace msgs) (a, b) = true := by
  induction msgs with
  | nil => intro a b; simp [CheckCompletedRequestsTrace, emptyChecksLockedFrom]
  | cons m rest ih =>
    intro a b
    by_cases hm : m.msg = CURLMSG.DONE
    · simp [CheckCompletedRequestsTrace, hm, emptyChecksLockedFrom, setHeld, ih]
    · simp [CheckCompletedRequestsTrace, hm, ih]

theorem checkCompletedTrace_noCallback (msgs : List CURLMsg) :
    QueueEv.onCompletedCall ∉ CheckCompletedRequestsTrace msgs := by
  induction msgs with
  | nil => simp [CheckCompletedRequestsTrace]
  | cons m rest ih =>
    by_cases hm : m.msg = CURLMSG.DONE
    · simp [CheckCompletedRequestsTrace, hm, ih]
    · simp [CheckCompletedRequestsTrace, hm, ih]

/-! ## Claim theorems -/

/-- Claim C1: a Transfer Context popped during the admission drain whose
`InitCurl` fails is destroyed immediately, is never added to the
multiplexer's active set, no entry for it is pushed to the completed
queue (the completed queue is unchanged by the drain), and its
`OnCompleted()` is never invoked (the invoked list is unchanged). -/
theorem C1_initFailure_silentDrop (s : EngineState) (c : IHTTPContext)
    (hdes : c ∈ (asyncPerformLoop s.requestQueue 0).2.2)
    (hact : c ∉ s.multiHandles) :
    c.InitCurl = false ∧
    c ∈ (AsyncPerformRequests s).destroyed ∧
    c ∉ (asyncPerformLoop s.requestQueue 0).2.1 ∧
    c ∉ (AsyncPerformRequests s).multiHandles ∧
    (AsyncPerformRequests s).completedQueue = s.completedQueue ∧
    (AsyncPerformRequests s).invoked = s.invoked := by
  have hfail := asyncPerformLoop_des_initFail s.requestQueue 0 c hdes
  have hnadm : c ∉ (asyncPerformLoop s.requestQueue 0).2.1 := by
    intro hmem
    have hok := asyncPerformLoop_adm_initOk s.requestQueue 0 c hmem
    rw [hfail] at hok
    simp at hok
  refine ⟨hfail, ?_, hnadm, ?_, rfl, rfl⟩
  · show c ∈ s.destroyed ++ (asyncPerformLoop s.requestQueue 0).2.2
    exact List.mem_append.mpr (Or.inr hdes)
  · show c ∉ s.multiHandles ++ (asyncPerformLoop s.requestQueue 0).2.1
    intro hmem
    rcases List.mem_append.mp hmem with h | h
    · exact hact h
    · exact hnadm h

/-- Witness for C1: a concrete two-element pending queue whose first
context fails initialization. -/
theorem C1_witness :
    (⟨1, false⟩ : IHTTPContext) ∈
      (asyncPerformLoop (EngineState.mk [⟨1, false⟩, ⟨2, true⟩] [] [] [] []).requestQueue 0).2.2 ∧
    (⟨1, false⟩ : IHTTPContext) ∈
      (AsyncPerformRequests (EngineState.mk [⟨1, false⟩, ⟨2, true⟩] [] [] [] [])).destroyed :=
  ⟨by decide,
   (C1_initFailure_silentDrop (EngineState.mk [⟨1, false⟩, ⟨2, true⟩] [] [] [] [])
     ⟨1, false⟩ (by decide) (by decide)).2.1⟩

/-- Claim C2: a single wake admits at most `MAX_PROCESS` (10) contexts,
and the drain loop stops exactly when the pending queue is exhausted or
the cap is reached. -/
theorem C2_boundedBatch (s : EngineState) (q : List IHTTPContext) :
    (asyncPerformLoop q 0).2.1.length ≤ MAX_PROCESS ∧
    ((asyncPerformLoop q 0).1 = [] ∨ (asyncPerformLoop q 0).2.1.length = MAX_PROCESS) ∧
    (AsyncPerformRequests s).multiHandles.length ≤ s.multiHandles.length + MAX_PROCESS := by
  refine ⟨?_, ?_, ?_⟩
  · simpa using asyncPerformLoop_adm_length q 0
  · rcases asyncPerformLoop_stops q 0 (by simp [MAX_PROCESS]) with h | h
    · exact Or.inl h
    · exact Or.inr (by omega)
  · show (s.multiHandles ++ (asyncPerformLoop s.requestQueue 0).2.1).length ≤ _
    have h := asyncPerformLoop_adm_length s.requestQueue 0
    simp only [List.length_append]
    omega

/-- Claim C3: one tick invokes at most one completion callback; when
the completed queue is non-empty the tick pops exactly its head, invokes
its callback and destroys it; and a queue of N completions is fully
drained, in push order, after N ticks. -/
theorem C3_tickBoundedDraining (s : EngineState) (c : IHTTPContext)
    (rest : List IHTTPContext) :
    (RunTick s).invoked.length ≤ s.invoked.length + 1 ∧
    (s.completedQueue = c :: rest →
      (RunTick s).invoked = s.invoked ++ [c.id] ∧
      (RunTick s).completedQueue = rest ∧
      (RunTick s).destroyed = s.destroyed ++ [c]) ∧
    (RunTicks s.completedQueue.length s).completedQueue = [] ∧
    (RunTicks s.completedQueue.length s).invoked =
      s.invoked ++ s.completedQueue.map (fun x => x.id) := by
  refine ⟨?_, ?_, (runTicks_drain s.completedQueue.length s rfl).1,
    (runTicks_drain s.completedQueue.length s rfl).2⟩
  · cases hc : s.completedQueue with
    | nil => simp [RunTick, FrameHook, hc]
    | cons a r => simp [RunTick, FrameHook, hc]
  · intro hc
    simp [RunTick, FrameHook, hc]

/-- Witness for C3: a concrete completed queue of two entries; one tick
pops exactly the first. -/
theorem C3_witness :
    (RunTick (EngineState.mk [] [⟨5, true⟩, ⟨6, true⟩] [] [] [])).invoked = [5] ∧
    (RunTick (EngineState.mk [] [⟨5, true⟩, ⟨6, true⟩] [] [] [])).completedQueue =
      [⟨6, true⟩] ∧
    (RunTick (EngineState.mk [] [⟨5, true⟩, ⟨6, true⟩] [] [] [])).destroyed =
      [⟨5, true⟩] :=
  (C3_tickBoundedDraining (EngineState.mk [] [⟨5, true⟩, ⟨6, true⟩] [] [] [])
    ⟨5, true⟩ [⟨6, true⟩]).2.1 (by decide)

/-- Claim C4 counterexample: `FrameHook` (with the request queue
non-empty and the completed queue non-empty) checks both queues'
emptiness WITHOUT holding their locks, and pops the completed queue
without re-checking emptiness after acquiring its lock — refuting the
claim that every emptiness check occurs under the lock and that every
pop is preceded by a locked re-check. -/
theorem C4_counterexample :
    queueAccessesLocked (FrameHookTrace true false) = false ∧
    popsRecheckedFrom (FrameHookTrace true false) (false, false) = false := by
  decide

/-- Claim C4 (amended): all pushes and pops of the pending and completed
queues occur while the accessing function holds that queue's lock, and
the reactor-side functions (`AsyncPerformRequests`, `AddRequestToQueue`,
`CheckCompletedRequests`) also perform every emptiness check under the
lock, re-checking before each pop; `FrameHook`, however, checks
emptiness of both queues without holding any lock and pops the completed
queue without re-checking emptiness after acquiring its lock. -/
theorem C4_lockDiscipline_amended (q : List IHTTPContext) (msgs : List CURLMsg)
    (re ce : Bool) :
    queueAccessesLocked (AsyncPerformRequestsTrace q) = true ∧
    popsRecheckedFrom (AsyncPerformRequestsTrace q) (false, false) = true ∧
    queueAccessesLocked AddRequestToQueueTrace = true ∧
    queueAccessesLocked (CheckCompletedRequestsTrace msgs) = true ∧
    popsPushesLockedFrom (FrameHookTrace re ce) (false, false) = true ∧
    emptyChecksLockedFrom (FrameHookTrace re ce) (false, false) = false ∧
    popsRecheckedFrom (FrameHookTrace re false) (false, false) = false := by
  refine ⟨?_, ?_, by decide, ?_, ?_, ?_, ?_⟩
  · unfold queueAccessesLocked
    have h1 : popsPushesLockedFrom (AsyncPerformRequestsTrace q) (false, false) =
        popsPushesLockedFrom
          (drainLoopTrace q 0 ++ [QueueEv.unlockQ QueueId.requestQ]) (true, false) := rfl
    have h2 : emptyChecksLockedFrom (AsyncPerformRequestsTrace q) (false, false) =
        emptyChecksLockedFrom
          (drainLoopTrace q 0 ++ [QueueEv.unlockQ QueueId.requestQ]) (true, false) := rfl
    rw [h1, h2, drainLoopTrace_popsPushes, drainLoopTrace_emptyChecks]
    rfl
  · have h3 : popsRecheckedFrom (AsyncPerformRequestsTrace q) (false, false) =
        popsRecheckedFrom
          (drainLoopTrace q 0 ++ [QueueEv.unlockQ QueueId.requestQ]) (false, false) := rfl
    rw [h3, drainLoopTrace_rechecked]
  · unfold queueAccessesLocked
    rw [checkCompletedTrace_popsPushes msgs false false,
        checkCompletedTrace_emptyChecks msgs false false]
    rfl
  · cases re <;> cases ce <;> decide
  · cases re <;> cases ce <;> decide
  · cases re <;> decide

/-- Claim C5: the completion-draining step consumes every pending
notification; it leaves the invoked-callback list and request queue
unchanged (it never invokes a completion callback — its trace contains
no callback invocation), pushes exactly the done notifications' contexts
onto the completed queue in order and under that queue's lock, removes
exactly the done notifications' handles from the active set, and a
notification whose kind is not done causes no state change. -/
theorem C5_completionDrainNoCallback (msgs : List CURLMsg) (s : EngineState) :
    (CheckCompletedRequests msgs s).invoked = s.invoked ∧
    (CheckCompletedRequests msgs s).requestQueue = s.requestQueue ∧
    (CheckCompletedRequests msgs s).completedQueue =
      s.completedQueue ++
        (msgs.filter (fun m => m.msg == CURLMSG.DONE)).map (fun m => m.context) ∧
    (CheckCompletedRequests msgs s).multiHandles =
      (msgs.filter (fun m => m.msg == CURLMSG.DONE)).foldl
        (fun a m => a.eraseP (fun x => x == m.context)) s.multiHandles ∧
    (∀ (ctx : IHTTPContext) (rest : List CURLMsg),
      CheckCompletedRequests (CURLMsg.mk CURLMSG.NONE ctx :: rest) s =
        CheckCompletedRequests rest s) ∧
    (∀ (ctx : IHTTPContext) (rest : List CURLMsg),
      CheckCompletedRequests (CURLMsg.mk CURLMSG.LAST ctx :: rest) s =
        CheckCompletedRequests rest s) ∧
    QueueEv.onCompletedCall ∉ CheckCompletedRequestsTrace msgs ∧
    queueAccessesLocked (CheckCompletedRequestsTrace msgs) = true := by
  refine ⟨(checkCompleted_preserved msgs s).1, (checkCompleted_preserved msgs s).2.1,
    checkCompleted_completedQueue msgs s, checkCompleted_multiHandles msgs s,
    ?_, ?_, checkCompletedTrace_noCallback msgs, ?_⟩
  · intro ctx rest; simp [CheckCompletedRequests]
  · intro ctx rest; simp [CheckCompletedRequests]
  · unfold queueAccessesLocked
    rw [checkCompletedTrace_popsPushes msgs false false,
        checkCompletedTrace_emptyChecks msgs false false]
    rfl

/-- Claim C6: a deadline of `-1` stops the shared timer; any other
deadline (re)starts it to fire once (`repeat` 0) after exactly the
requested number of milliseconds, with a handler that performs a
timeout-driven `curl_multi_socket_action` on the pseudo socket
`CURL_SOCKET_TIMEOUT` (not tied to any specific socket) and then checks
for finished operations. -/
theorem C6_timerDeadline (t : uv_timer_t) (timeout_ms : Int) :
    (CurlTimeoutCallback (-1) t).1 = { t with running := false } ∧
    (CurlTimeoutCallback (-1) t).2 = 0 ∧
    (timeout_ms ≠ -1 →
      (CurlTimeoutCallback timeout_ms t).1 =
        { running := true, timeout := timeout_ms, repeatMs := 0,
          callbackSteps := [ReactorStep.socketAction CURL_SOCKET_TIMEOUT 0,
                            ReactorStep.checkCompleted] } ∧
      (CurlTimeoutCallback timeout_ms t).2 = 0) := by
  refine ⟨?_, ?_, ?_⟩
  · simp [CurlTimeoutCallback, uv_timer_stop]
  · simp [CurlTimeoutCallback]
  · intro h
    simp [CurlTimeoutCallback, h, uv_timer_start, PerformRequestsSteps]

/-- Witness for C6: a concrete deadline of 250 ms starts the shared
timer one-shot with the `PerformRequests` handler. -/
theorem C6_witness :
    (CurlTimeoutCallback 250 ⟨false, 0, 0, []⟩).1 =
      { running := true, timeout := 250, repeatMs := 0,
        callbackSteps := [ReactorStep.socketAction CURL_SOCKET_TIMEOUT 0,
                          ReactorStep.checkCompleted] } ∧
    (CurlTimeoutCallback 250 ⟨false, 0, 0, []⟩).2 = 0 :=
  (C6_timerDeadline ⟨false, 0, 0, []⟩ 250).2.2 (by decide)

/-- Claim C7 counterexample: a deferred callback relayed after teardown
(torn-down flag set) IS still delivered — `execute_cb` invokes the
callback unconditionally, never consulting the `unloaded` flag — so the
claim that no deferred callback is delivered after `stop()` is false. -/
theorem C7_counterexample : ¬ ((execute_cb true).1 = false) := by decide

/-- Claim C7 (amended): after `stop()` returns the torn-down flag is
set; every log message relayed after that point is freed without being
passed to the host logger; deferred callbacks, however, are still
delivered — `execute_cb` runs the callback regardless of the torn-down
flag; and `stop()` sends the shutdown wake, joins the reactor thread,
closes the event loop, releases the transfer manager, and sets the
torn-down flag, in that order. -/
theorem C7_teardown_amended (u flag : Bool) :
    (SDK_OnUnload u).1 = true ∧
    (SDK_OnUnload u).2 = SDK_OnUnloadSteps ∧
    List.Sublist [TeardownStep.asyncStopSend, TeardownStep.threadJoin,
      TeardownStep.loopClose, TeardownStep.curlMultiCleanup,
      TeardownStep.setUnloadedTrue] SDK_OnUnloadSteps ∧
    log_msg true = (false, true) ∧
    log_err true = (false, true) ∧
    log_msg false = (true, true) ∧
    execute_cb flag = (true, true) :=
  ⟨rfl, rfl, by decide, rfl, rfl, rfl, rfl⟩

/-- Claim C8: a register-or-update request reuses the assigned Socket
Watch Context or creates one exactly when none is assigned, and starts
polling with readable interest unless the request is write-only
(`CURL_POLL_OUT`) and writable interest unless it is read-only
(`CURL_POLL_IN`); a remove request with an assigned context stops
polling, destroys the context and clears the association, and with no
assigned context does nothing; no other path of the callback creates or
destroys a Socket Watch Context. -/
theorem C8_socketWatchLifecycle (socket : Int) (c : CurlContext)
    (a : CurlPollAction) (sd : Option CurlContext) :
    CurlSocketCallback CurlPollAction.CURL_POLL_IN socket (some c) =
      (some c, [SockEv.pollStart UV_READABLE], 0) ∧
    CurlSocketCallback CurlPollAction.CURL_POLL_OUT socket (some c) =
      (some c, [SockEv.pollStart UV_WRITABLE], 0) ∧
    CurlSocketCallback CurlPollAction.CURL_POLL_INOUT socket (some c) =
      (some c, [SockEv.pollStart (UV_WRITABLE + UV_READABLE)], 0) ∧
    CurlSocketCallback CurlPollAction.CURL_POLL_IN socket none =
      (some ⟨socket⟩, [SockEv.ctxCreated, SockEv.pollStart UV_READABLE], 0) ∧
    CurlSocketCallback CurlPollAction.CURL_POLL_OUT socket none =
      (some ⟨socket⟩, [SockEv.ctxCreated, SockEv.pollStart UV_WRITABLE], 0) ∧
    CurlSocketCallback CurlPollAction.CURL_POLL_INOUT socket none =
      (some ⟨socket⟩,
        [SockEv.ctxCreated, SockEv.pollStart (UV_WRITABLE + UV_READABLE)], 0) ∧
    CurlSocketCallback CurlPollAction.CURL_POLL_REMOVE socket (some c) =
      (none, [SockEv.pollStop, SockEv.ctxDestroyed], 0) ∧
    CurlSocketCallback CurlPollAction.CURL_POLL_REMOVE socket none =
      (none, [], 0) ∧
    (SockEv.ctxDestroyed ∈ (CurlSocketCallback a socket sd).2.1 →
      a = CurlPollAction.CURL_POLL_REMOVE ∧ sd ≠ none) ∧
    (SockEv.ctxCreated ∈ (CurlSocketCallback a socket sd).2.1 →
      sd = none ∧ a ≠ CurlPollAction.CURL_POLL_REMOVE) := by
  refine ⟨rfl, rfl, rfl, rfl, rfl, rfl, rfl, rfl, ?_, ?_⟩
  · cases a <;> rcases sd with _ | c2 <;>
      simp [CurlSocketCallback, CurlContext.DestroyEvents]
  · cases a <;> rcases sd with _ | c2 <;>
      simp [CurlSocketCallback, CurlContext.DestroyEvents]

/-- Witness for C8: a concrete remove request on a socket with an
assigned watch context destroys the context. -/
theorem C8_witness :
    SockEv.ctxDestroyed ∈
      (CurlSocketCallback CurlPollAction.CURL_POLL_REMOVE 7 (some ⟨7⟩)).2.1 ∧
    (CurlPollAction.CURL_POLL_REMOVE = CurlPollAction.CURL_POLL_REMOVE ∧
      (some (⟨7⟩ : CurlContext)) ≠ none) :=
  ⟨by decide,
   (C8_socketWatchLifecycle 7 ⟨7⟩ CurlPollAction.CURL_POLL_REMOVE
     (some ⟨7⟩)).2.2.2.2.2.2.2.2.1 (by decide)⟩

/-- Claim C9: only successful initializations count toward the per-wake
cap: a pending queue of contexts that all fail initialization is drained
completely in one wake — every context is popped and destroyed, none is
admitted, and the queue is left empty, regardless of its length. -/
theorem C9_onlySuccessesCount (q : List IHTTPContext)
    (hall : ∀ c ∈ q, c.InitCurl = false) :
    (asyncPerformLoop q 0).2.1 = [] ∧
    (asyncPerformLoop q 0).2.2 = q ∧
    (asyncPerformLoop q 0).1 = [] := by
  have h := asyncPerformLoop_all_fail q 0 (by simp [MAX_PROCESS]) hall
  rw [h]
  exact ⟨rfl, rfl, rfl⟩

/-- Witness for C9: twelve failing contexts — more than the cap of 10 —
are all popped and destroyed in a single wake, with none admitted. -/
theorem C9_witness :
    (∀ c ∈ ([⟨1, false⟩, ⟨2, false⟩, ⟨3, false⟩, ⟨4, false⟩, ⟨5, false⟩,
             ⟨6, false⟩, ⟨7, false⟩, ⟨8, false⟩, ⟨9, false⟩, ⟨10, false⟩,
             ⟨11, false⟩, ⟨12, false⟩] : List IHTTPContext),
      c.InitCurl = false) ∧
    ((asyncPerformLoop [⟨1, false⟩, ⟨2, false⟩, ⟨3, false⟩, ⟨4, false⟩,
        ⟨5, false⟩, ⟨6, false⟩, ⟨7, false⟩, ⟨8, false⟩, ⟨9, false⟩,
        ⟨10, false⟩, ⟨11, false⟩, ⟨12, false⟩] 0).2.1 = [] ∧
     (asyncPerformLoop [⟨1, false⟩, ⟨2, false⟩, ⟨3, false⟩, ⟨4, false⟩,
        ⟨5, false⟩, ⟨6, false⟩, ⟨7, false⟩, ⟨8, false⟩, ⟨9, false⟩,
        ⟨10, false⟩, ⟨11, false⟩, ⟨12, false⟩] 0).2.2 =
       [⟨1, false⟩, ⟨2, false⟩, ⟨3, false⟩, ⟨4, false⟩, ⟨5, false⟩,
        ⟨6, false⟩, ⟨7, false⟩, ⟨8, false⟩, ⟨9, false⟩, ⟨10, false⟩,
        ⟨11, false⟩, ⟨12, false⟩] ∧
     (asyncPerformLoop [⟨1, false⟩, ⟨2, false⟩, ⟨3, false⟩, ⟨4, false⟩,
        ⟨5, false⟩, ⟨6, false⟩, ⟨7, false⟩, ⟨8, false⟩, ⟨9, false⟩,
        ⟨10, false⟩, ⟨11, false⟩, ⟨12, false⟩] 0).1 = []) :=
  ⟨by decide,
   C9_onlySuccessesCount [⟨1, false⟩, ⟨2, false⟩, ⟨3, false⟩, ⟨4, false⟩,
     ⟨5, false⟩, ⟨6, false⟩, ⟨7, false⟩, ⟨8, false⟩, ⟨9, false⟩,
     ⟨10, false⟩, ⟨11, false⟩, ⟨12, false⟩] (by decide)⟩

/-- Claim C10: `AddRequestToQueue` only pushes onto the pending queue —
every other engine-state component is unchanged and its trace is
lock-push-unlock with no wake signal — while the per-tick hook's trace
contains the 'new work pending' wake signal exactly when it observes the
pending queue non-empty. -/
theorem C10_submitDoesNotWake (s : EngineState) (c : IHTTPContext) (re ce : Bool) :
    (AddRequestToQueue s c).requestQueue = s.requestQueue ++ [c] ∧
    (AddRequestToQueue s c).completedQueue = s.completedQueue ∧
    (AddRequestToQueue s c).multiHandles = s.multiHandles ∧
    (AddRequestToQueue s c).destroyed = s.destroyed ∧
    (AddRequestToQueue s c).invoked = s.invoked ∧
    QueueEv.asyncSend ∉ AddRequestToQueueTrace ∧
    (FrameHook s).2 = !s.requestQueue.isEmpty ∧
    (QueueEv.asyncSend ∈ FrameHookTrace re ce ↔ re = false) := by
  refine ⟨rfl, rfl, rfl, rfl, rfl, by decide, ?_, ?_⟩
  · cases hc : s.completedQueue <;> simp [FrameHook, hc]
  · cases re <;> cases ce <;> decide
